import Mathlib

/-
  Shallow embedding of the Cozy trigger-evaluation engine from the
  ScopeLift/cozy-triggers repository.

  The repository contains several Solidity trigger contracts.  Each one
  watches external numeric signals (Yearn vault price per share, Curve
  pool virtual prices, token balances) and exposes a one-way latch:
  `checkAndToggleTrigger` evaluates `checkTriggerCondition` and, if it
  reports a violation, flips `isTriggered` permanently.

  Embedding conventions:
  * `uint256` values are modelled as `ℕ`.  The arithmetic in the trigger
    conditions (`new < old * tol / scale`) is modelled on `ℕ`; the
    overflow-checked multiplication of Solidity 0.8 is modelled
    separately (`mulCheck`, `violatesChecked`) where overflow matters.
  * External reads that the source wraps in `try`/`catch`
    (`get_virtual_price()`) are modelled as `Option ℕ` fields of an
    environment record: `none` models a reverting call.  Reads the
    source performs unguarded (`balanceOf`, `balances(i)`) are plain
    `ℕ` fields.
  * Storage writes become explicit state passing: each contract's
    mutable storage is a `State` structure, and `checkTriggerCondition`
    has type `Env → State → Bool × State`.
-/

namespace CozyTriggers

/-- Scale used to define percentages in every trigger contract
(`uint256 public constant scale = 1000`). -/
def scale : ℕ := 1000

/-- The tolerance comparison shared by all trigger contracts, e.g.
`_currentPricePerShare < ((lastPricePerShare * vaultTol) / scale)` in
`YearnCrvTricrypto.checkTriggerCondition` and
`token0.balanceOf(address(curve)) < ((curve.balances(0) * balanceTol) / scale)`
in the balance checks.  `old` is the remembered (or internally tracked)
value, `new` the fresh (or true) value; division is integer floor
division. -/
def violates (old new num den : ℕ) : Bool := new < old * num / den

/-- The uint256 modulus. -/
def U256 : ℕ := 2 ^ 256

/-- Solidity 0.8 checked multiplication on uint256: the EVM `mul` result
is kept only when the mathematical product fits in 256 bits; otherwise
the compiler-inserted overflow check reverts, modelled as `none`. -/
def mulCheck (a b : ℕ) : Option ℕ := if a * b < U256 then some (a * b) else none

/-- Solidity division: reverts on a zero divisor, otherwise floor
division. -/
def divCheck (a b : ℕ) : Option ℕ := if b = 0 then none else some (a / b)

/-- The tolerance comparison `new < old * num / den` exactly as executed
by Solidity 0.8 checked arithmetic on uint256: `none` models a revert of
the evaluation (overflow of `old * num`, or a zero denominator). -/
def violatesChecked (old new num den : ℕ) : Option Bool :=
  match mulCheck old num with
  | none => none
  | some p =>
    match divCheck p den with
    | none => none
    | some t => some (decide (new < t))

/-- A trigger instance: the `isTriggered` latch of the `ITrigger` base
contract together with the concrete contract's tracker storage. -/
structure Trigger (σ : Type) where
  isTriggered : Bool
  trackers : σ
deriving DecidableEq

/-- Modelled from the spec: `ITrigger.sol` (the abstract base contract
providing `checkAndToggleTrigger`) is imported by every trigger contract
but its body is not among the repository sources; §4.4 of the spec
describes it.  If the instance is already `Triggered` the call is a
no-op returning `true`; otherwise it runs `checkTriggerCondition`,
latches when that reports a violation, and returns the resulting
triggered status.  Storage writes performed by `checkTriggerCondition`
persist in either case (Solidity state is only rolled back on revert). -/
def checkAndToggleTrigger {ε σ : Type} (check : ε → σ → Bool × σ)
    (e : ε) (t : Trigger σ) : Bool × Trigger σ :=
  if t.isTriggered then (true, t)
  else
    let r := check e t.trackers
    (r.1, ⟨r.1, r.2⟩)

/-- Iterate `checkAndToggleTrigger` over a sequence of per-call
environment readings, keeping the evolving trigger state. -/
def run {ε σ : Type} (check : ε → σ → Bool × σ)
    (es : List ε) (t : Trigger σ) : Trigger σ :=
  es.foldl (fun t e => (checkAndToggleTrigger check e t).2) t

namespace YearnCrvTricrypto

/-- `vaultTol = scale - 500`: toggle if price per share drops by more
than 50%. -/
def vaultTol : ℕ := scale - 500

/-- `curveTol = scale - 750`: toggle if the Curve virtual price drops by
more than 75%. -/
def curveTol : ℕ := scale - 750

/-- Values read from the external contracts during one call:
`vault.pricePerShare()` and `curve.get_virtual_price()`.  Neither call
is guarded by `try`/`catch` in this contract, so both are plain reads. -/
structure Env where
  pricePerShare : ℕ
  virtualPrice : ℕ
deriving DecidableEq

/-- Mutable storage of `YearnCrvTricrypto`: `lastPricePerShare` and
`lastVirtualPrice`. -/
structure State where
  lastPricePerShare : ℕ
  lastVirtualPrice : ℕ
deriving DecidableEq

/-- `YearnCrvTricrypto.checkTriggerCondition`: reads both fresh values,
computes both statuses, unconditionally saves the new data, and returns
`_statusVault || _statusCurve`. -/
def checkTriggerCondition (e : Env) (s : State) : Bool × State :=
  let statusVault := violates s.lastPricePerShare e.pricePerShare vaultTol scale
  let statusCurve := violates s.lastVirtualPrice e.virtualPrice curveTol scale
  (statusVault || statusCurve, ⟨e.pricePerShare, e.virtualPrice⟩)

/-- Boolean transcription of the hypothesis of the sliding-window claim:
along the sequence of readings, each fresh value is at least
`floor(previous lastValue * tol / scale)` for its tracker, with the
remembered values rebasing to the fresh reading at every step. -/
def noViolationSeq : State → List Env → Bool
  | _, [] => true
  | s, e :: es =>
    !violates s.lastPricePerShare e.pricePerShare vaultTol scale &&
    (!violates s.lastVirtualPrice e.virtualPrice curveTol scale &&
      noViolationSeq ⟨e.pricePerShare, e.virtualPrice⟩ es)

end YearnCrvTricrypto

namespace ConvexUSDP

/-- `virtualPriceTol = scale - 500`: toggle if a virtual price drops by
more than 50%. -/
def virtualPriceTol : ℕ := scale - 500

/-- `balanceTol = scale - 500`: toggle if true balances are more than
50% lower than internally tracked balances. -/
def balanceTol : ℕ := scale - 500

/-- Values read from the external contracts during one call.  The
`balanceOf`/`balances(i)` reads are unguarded storage reads; the two
`get_virtual_price()` calls are wrapped in `try`/`catch` by the source,
so they are modelled as `Option ℕ` with `none` for a revert. -/
structure Env where
  baseTokenBal0 : ℕ
  baseTokenBal1 : ℕ
  baseTokenBal2 : ℕ
  basePoolBal0 : ℕ
  basePoolBal1 : ℕ
  basePoolBal2 : ℕ
  metaTokenBal0 : ℕ
  metaTokenBal1 : ℕ
  metaPoolBal0 : ℕ
  metaPoolBal1 : ℕ
  vpBase : Option ℕ
  vpMeta : Option ℕ
deriving DecidableEq

/-- Mutable storage of `ConvexUSDP`: `lastVpBasePool` and
`lastVpMetaPool`. -/
structure State where
  lastVpBasePool : ℕ
  lastVpMetaPool : ℕ
deriving DecidableEq

/-- `ConvexUSDP.checkCurveBaseBalances`: true balance of each base-pool
token vs. the pool's internally tracked balance. -/
def checkCurveBaseBalances (e : Env) : Bool :=
  violates e.basePoolBal0 e.baseTokenBal0 balanceTol scale ||
  violates e.basePoolBal1 e.baseTokenBal1 balanceTol scale ||
  violates e.basePoolBal2 e.baseTokenBal2 balanceTol scale

/-- `ConvexUSDP.checkCurveMetaBalances`: same for the two meta-pool
tokens. -/
def checkCurveMetaBalances (e : Env) : Bool :=
  violates e.metaPoolBal0 e.metaTokenBal0 balanceTol scale ||
  violates e.metaPoolBal1 e.metaTokenBal1 balanceTol scale

/-- `ConvexUSDP.checkTriggerCondition`: balance checks first (early
return), then the base-pool virtual price in a `try`/`catch` (a revert
returns `true`; a non-violating fresh value is committed to
`lastVpBasePool` before the meta-pool check runs), then the meta-pool
virtual price likewise. -/
def checkTriggerCondition (e : Env) (s : State) : Bool × State :=
  if checkCurveBaseBalances e then (true, s)
  else if checkCurveMetaBalances e then (true, s)
  else
    match e.vpBase with
    | none => (true, s)
    | some b =>
      if violates s.lastVpBasePool b virtualPriceTol scale then (true, s)
      else
        match e.vpMeta with
        | none => (true, { s with lastVpBasePool := b })
        | some m =>
          if violates s.lastVpMetaPool m virtualPriceTol scale then
            (true, { s with lastVpBasePool := b })
          else (false, ⟨b, m⟩)

/-- `ConvexUSDP`'s constructor, as far as the engine state is concerned:
it resolves addresses, then seeds `lastVpMetaPool` and `lastVpBasePool`
from unguarded `get_virtual_price()` reads (a reverting read reverts the
whole deployment, modelled as `none`).  The `isTriggered := false`
initialisation is modelled from the spec: it lives in the `ITrigger`
base constructor, whose source is not in the repository (§3: the latch
"starts false").  No other check is performed: the constructor contains
no `require` on the live balance state. -/
def construct (e : Env) : Option (Trigger State) :=
  match e.vpMeta with
  | none => none
  | some m =>
    match e.vpBase with
    | none => none
    | some b => some ⟨false, ⟨b, m⟩⟩

end ConvexUSDP

namespace CurveThreeTokenBasePool

/-- `virtualPriceTol = scale - 500`. -/
def virtualPriceTol : ℕ := scale - 500

/-- `balanceTol = scale - 500`. -/
def balanceTol : ℕ := scale - 500

/-- Values read during one call: the three token balances held by the
pool, the pool's internally tracked balances, and `get_virtual_price()`
(wrapped in `try`/`catch` by the source, hence `Option`). -/
structure Env where
  tokenBal0 : ℕ
  tokenBal1 : ℕ
  tokenBal2 : ℕ
  poolBal0 : ℕ
  poolBal1 : ℕ
  poolBal2 : ℕ
  virtualPrice : Option ℕ
deriving DecidableEq

/-- Mutable storage: `lastVirtualPrice`. -/
structure State where
  lastVirtualPrice : ℕ
deriving DecidableEq

/-- `CurveThreeTokenBasePool.checkCurveBalances`. -/
def checkCurveBalances (e : Env) : Bool :=
  violates e.poolBal0 e.tokenBal0 balanceTol scale ||
  violates e.poolBal1 e.tokenBal1 balanceTol scale ||
  violates e.poolBal2 e.tokenBal2 balanceTol scale

/-- `CurveThreeTokenBasePool.checkTriggerCondition`: balance check first
(early return), then the virtual price in a `try`/`catch`; a revert
returns `true`, a non-violating fresh value is saved off for the next
call. -/
def checkTriggerCondition (e : Env) (s : State) : Bool × State :=
  if checkCurveBalances e then (true, s)
  else
    match e.virtualPrice with
    | none => (true, s)
    | some v =>
      if violates s.lastVirtualPrice v virtualPriceTol scale then (true, s)
      else (false, ⟨v⟩)

end CurveThreeTokenBasePool

namespace Convex2

/-- `virtualPriceTol = scale - 500`. -/
def virtualPriceTol : ℕ := scale - 500

/-- `balanceTol = scale - 500`. -/
def balanceTol : ℕ := scale - 500

/-- Values read during one call of the `Convex2` trigger (from
`scripts/create-protection-market-convex.ts`): the Convex receipt-token
total supply, the Curve gauge balance of the Convex staker, the base
and meta pool token balances, and the two `try`/`catch`-guarded
virtual prices. -/
structure Env where
  convexTokenSupply : ℕ
  gaugeStakerBal : ℕ
  baseTokenBal0 : ℕ
  baseTokenBal1 : ℕ
  baseTokenBal2 : ℕ
  basePoolBal0 : ℕ
  basePoolBal1 : ℕ
  basePoolBal2 : ℕ
  metaTokenBal0 : ℕ
  metaTokenBal1 : ℕ
  metaPoolBal0 : ℕ
  metaPoolBal1 : ℕ
  vpBase : Option ℕ
  vpMeta : Option ℕ
deriving DecidableEq

/-- Mutable storage of `Convex2`: `lastVpBasePool` and
`lastVpMetaPool`. -/
structure State where
  lastVpBasePool : ℕ
  lastVpMetaPool : ℕ
deriving DecidableEq

/-- `Convex2.checkCurveBaseBalances`. -/
def checkCurveBaseBalances (e : Env) : Bool :=
  violates e.basePoolBal0 e.baseTokenBal0 balanceTol scale ||
  violates e.basePoolBal1 e.baseTokenBal1 balanceTol scale ||
  violates e.basePoolBal2 e.baseTokenBal2 balanceTol scale

/-- `Convex2.checkCurveMetaBalances`. -/
def checkCurveMetaBalances (e : Env) : Bool :=
  violates e.metaPoolBal0 e.metaTokenBal0 balanceTol scale ||
  violates e.metaPoolBal1 e.metaTokenBal1 balanceTol scale

/-- `Convex2.checkTriggerCondition`: first the equality invariant
`IERC20(convexToken).totalSupply() != IERC20(gauge).balanceOf(staker)`
(any mismatch returns `true` immediately), then the balance checks,
then the two `try`/`catch`-guarded virtual-price checks exactly as in
`ConvexUSDP`. -/
def checkTriggerCondition (e : Env) (s : State) : Bool × State :=
  if e.convexTokenSupply ≠ e.gaugeStakerBal then (true, s)
  else if checkCurveBaseBalances e || checkCurveMetaBalances e then (true, s)
  else
    match e.vpBase with
    | none => (true, s)
    | some b =>
      if violates s.lastVpBasePool b virtualPriceTol scale then (true, s)
      else
        match e.vpMeta with
        | none => (true, { s with lastVpBasePool := b })
        | some m =>
          if violates s.lastVpMetaPool m virtualPriceTol scale then
            (true, { s with lastVpBasePool := b })
          else (false, ⟨b, m⟩)

end Convex2

/-! ### Helper lemmas about the latch -/

lemma checkAndToggle_of_triggered {ε σ : Type} (check : ε → σ → Bool × σ)
    (e : ε) (t : Trigger σ) (h : t.isTriggered = true) :
    checkAndToggleTrigger check e t = (true, t) := by
  simp [checkAndToggleTrigger, h]

lemma checkAndToggle_armed_fst {ε σ : Type} (check : ε → σ → Bool × σ)
    (e : ε) (s : σ) :
    (checkAndToggleTrigger check e ⟨false, s⟩).1 = (check e s).1 := rfl

lemma checkAndToggle_armed_snd {ε σ : Type} (check : ε → σ → Bool × σ)
    (e : ε) (s : σ) :
    (checkAndToggleTrigger check e ⟨false, s⟩).2 =
      ⟨(check e s).1, (check e s).2⟩ := rfl

lemma checkAndToggle_isTriggered_of_true {ε σ : Type} (check : ε → σ → Bool × σ)
    (e : ε) (t : Trigger σ) (h : (checkAndToggleTrigger check e t).1 = true) :
    (checkAndToggleTrigger check e t).2.isTriggered = true := by
  by_cases ht : t.isTriggered
  · simp [checkAndToggleTrigger, ht]
  · simp only [checkAndToggleTrigger, ht, if_neg, Bool.false_eq_true,
      ite_false] at h ⊢
    exact h

lemma run_cons {ε σ : Type} (check : ε → σ → Bool × σ)
    (e : ε) (es : List ε) (t : Trigger σ) :
    run check (e :: es) t = run check es (checkAndToggleTrigger check e t).2 := rfl

lemma run_of_triggered {ε σ : Type} (check : ε → σ → Bool × σ)
    (es : List ε) (t : Trigger σ) (h : t.isTriggered = true) :
    run check es t = t := by
  induction es with
  | nil => rfl
  | cons e es ih => rw [run_cons, checkAndToggle_of_triggered check e t h]; exact ih

/-! ### Claim-specific lemmas -/

lemma curveTTBP_fetchFail_fst (e : CurveThreeTokenBasePool.Env)
    (s : CurveThreeTokenBasePool.State) (h : e.virtualPrice = none) :
    (CurveThreeTokenBasePool.checkTriggerCondition e s).1 = true := by
  unfold CurveThreeTokenBasePool.checkTriggerCondition
  split
  · rfl
  · rw [h]

lemma convexUSDP_fetchFail_fst (e : ConvexUSDP.Env) (s : ConvexUSDP.State)
    (h : e.vpBase = none ∨ e.vpMeta = none) :
    (ConvexUSDP.checkTriggerCondition e s).1 = true := by
  unfold ConvexUSDP.checkTriggerCondition
  split
  · rfl
  · split
    · rfl
    · rcases h with h | h
      · rw [h]
      · cases hb : e.vpBase with
        | none => rfl
        | some b =>
          simp only
          split
          · rfl
          · rw [h]

/-! ### Claims -/

/-- C1: for an Armed instance, a failing fetch of a fresh signal value
(a reverting `get_virtual_price()` call, the only fetch the source
guards with `try`/`catch`) is not propagated as an error to the caller
of `checkAndToggleTrigger` — the embedding of the evaluation is a total
function — and is reported as a violation: the call returns `true` and
the trigger latches.  Shown for `CurveThreeTokenBasePool` (its single
guarded fetch fails) and for `ConvexUSDP` (either of its two guarded
fetches fails). -/
theorem claim_C1_fetch_failure_latches
    (eC : CurveThreeTokenBasePool.Env) (sC : CurveThreeTokenBasePool.State)
    (eU : ConvexUSDP.Env) (sU : ConvexUSDP.State)
    (hC : eC.virtualPrice = none)
    (hU : eU.vpBase = none ∨ eU.vpMeta = none) :
    (checkAndToggleTrigger CurveThreeTokenBasePool.checkTriggerCondition eC ⟨false, sC⟩).1 = true ∧
    (checkAndToggleTrigger CurveThreeTokenBasePool.checkTriggerCondition eC ⟨false, sC⟩).2.isTriggered = true ∧
    (checkAndToggleTrigger ConvexUSDP.checkTriggerCondition eU ⟨false, sU⟩).1 = true ∧
    (checkAndToggleTrigger ConvexUSDP.checkTriggerCondition eU ⟨false, sU⟩).2.isTriggered = true := by
  have h1 : (CurveThreeTokenBasePool.checkTriggerCondition eC sC).1 = true :=
    curveTTBP_fetchFail_fst eC sC hC
  have h2 : (ConvexUSDP.checkTriggerCondition eU sU).1 = true :=
    convexUSDP_fetchFail_fst eU sU hU
  refine ⟨?_, ?_, ?_, ?_⟩
  · rw [checkAndToggle_armed_fst]; exact h1
  · rw [checkAndToggle_armed_snd]; exact h1
  · rw [checkAndToggle_armed_fst]; exact h2
  · rw [checkAndToggle_armed_snd]; exact h2

theorem claim_C1_fetch_failure_latches_witness :
    ((⟨5, 5, 5, 5, 5, 5, none⟩ : CurveThreeTokenBasePool.Env).virtualPrice = none) ∧
    ((⟨5, 5, 5, 5, 5, 5, 5, 5, 5, 5, some 7, none⟩ : ConvexUSDP.Env).vpBase = none ∨
      (⟨5, 5, 5, 5, 5, 5, 5, 5, 5, 5, some 7, none⟩ : ConvexUSDP.Env).vpMeta = none) ∧
    (checkAndToggleTrigger ConvexUSDP.checkTriggerCondition
      ⟨5, 5, 5, 5, 5, 5, 5, 5, 5, 5, some 7, none⟩ ⟨false, ⟨7, 7⟩⟩).2.isTriggered = true :=
  ⟨by decide, by decide,
    (claim_C1_fetch_failure_latches ⟨5, 5, 5, 5, 5, 5, none⟩ ⟨7⟩
      ⟨5, 5, 5, 5, 5, 5, 5, 5, 5, 5, some 7, none⟩ ⟨7, 7⟩
      (by decide) (by decide)).2.2.2⟩

/-- C2: the latch is monotonic and idempotent.  Once one call to
`checkAndToggleTrigger` has returned `true`, the instance is marked
triggered; any sequence of further calls leaves the state exactly
unchanged (so no tracker's `lastValue` is mutated and — since the
result is the same for every possible environment — the trackers'
checks are not re-run), and every subsequent call returns `true`.
Stated for the `ITrigger` latch (modelled from the spec, `ITrigger.sol`
not being among the repository sources) over an arbitrary concrete
trigger's `checkTriggerCondition`. -/
theorem claim_C2_monotonic_latch {ε σ : Type} (check : ε → σ → Bool × σ)
    (e : ε) (t : Trigger σ) (es : List ε) (e' : ε)
    (h : (checkAndToggleTrigger check e t).1 = true) :
    (checkAndToggleTrigger check e t).2.isTriggered = true ∧
    run check es (checkAndToggleTrigger check e t).2 = (checkAndToggleTrigger check e t).2 ∧
    checkAndToggleTrigger check e' (run check es (checkAndToggleTrigger check e t).2) =
      (true, (checkAndToggleTrigger check e t).2) := by
  have htrig : (checkAndToggleTrigger check e t).2.isTriggered = true :=
    checkAndToggle_isTriggered_of_true check e t h
  have hrun : run check es (checkAndToggleTrigger check e t).2 =
      (checkAndToggleTrigger check e t).2 :=
    run_of_triggered check es _ htrig
  refine ⟨htrig, hrun, ?_⟩
  rw [hrun, checkAndToggle_of_triggered check e' _ htrig]

theorem claim_C2_monotonic_latch_witness :
    ((checkAndToggleTrigger ConvexUSDP.checkTriggerCondition
        ⟨5, 5, 5, 5, 5, 5, 5, 5, 5, 5, none, none⟩ ⟨false, ⟨7, 7⟩⟩).1 = true) ∧
    checkAndToggleTrigger ConvexUSDP.checkTriggerCondition
        ⟨9, 9, 9, 9, 9, 9, 9, 9, 9, 9, some 9, some 9⟩
        (run ConvexUSDP.checkTriggerCondition
          [⟨8, 8, 8, 8, 8, 8, 8, 8, 8, 8, some 8, some 8⟩]
          (checkAndToggleTrigger ConvexUSDP.checkTriggerCondition
            ⟨5, 5, 5, 5, 5, 5, 5, 5, 5, 5, none, none⟩ ⟨false, ⟨7, 7⟩⟩).2) =
      (true, (checkAndToggleTrigger ConvexUSDP.checkTriggerCondition
        ⟨5, 5, 5, 5, 5, 5, 5, 5, 5, 5, none, none⟩ ⟨false, ⟨7, 7⟩⟩).2) :=
  ⟨by decide,
    (claim_C2_monotonic_latch ConvexUSDP.checkTriggerCondition
      ⟨5, 5, 5, 5, 5, 5, 5, 5, 5, 5, none, none⟩ ⟨false, ⟨7, 7⟩⟩
      [⟨8, 8, 8, 8, 8, 8, 8, 8, 8, 8, some 8, some 8⟩]
      ⟨9, 9, 9, 9, 9, 9, 9, 9, 9, 9, some 9, some 9⟩ (by decide)).2.2⟩

/-- C3: the violation predicate used by every tracker comparison is
exactly `new < floor(old * num / den)` with integer floor division; a
fresh value exactly equal to the floored threshold is not a violation,
and — when the threshold is positive — a fresh value one unit below it
is a violation. -/
theorem claim_C3_boundary_semantics (old fresh num den : ℕ) (h : num ≤ den) :
    (violates old fresh num den = true ↔ fresh < old * num / den) ∧
    violates old (old * num / den) num den = false ∧
    (0 < old * num / den →
      violates old (old * num / den - 1) num den = true) := by
  refine ⟨?_, ?_, ?_⟩
  · simp [violates]
  · simp [violates]
  · intro hpos
    simp only [violates, decide_eq_true_eq]
    exact Nat.sub_lt hpos Nat.one_pos

theorem claim_C3_boundary_semantics_witness :
    500 ≤ 1000 ∧
    (violates 1000 499 500 1000 = true ↔ 499 < 1000 * 500 / 1000) ∧
    violates 1000 (1000 * 500 / 1000) 500 1000 = false ∧
    (0 < 1000 * 500 / 1000 →
      violates 1000 (1000 * 500 / 1000 - 1) 500 1000 = true) :=
  ⟨by decide, claim_C3_boundary_semantics 1000 499 500 1000 (by decide)⟩

/-! ### Lemmas characterising the evaluation outcomes -/

lemma convex_check_false (e : ConvexUSDP.Env) (s : ConvexUSDP.State)
    (h : (ConvexUSDP.checkTriggerCondition e s).1 = false) :
    ∃ b m, e.vpBase = some b ∧ e.vpMeta = some m ∧
      ConvexUSDP.checkTriggerCondition e s = (false, ⟨b, m⟩) := by
  by_cases h1 : ConvexUSDP.checkCurveBaseBalances e
  · simp [ConvexUSDP.checkTriggerCondition, h1] at h
  by_cases h2 : ConvexUSDP.checkCurveMetaBalances e
  · simp [ConvexUSDP.checkTriggerCondition, h1, h2] at h
  cases hb : e.vpBase with
  | none => simp [ConvexUSDP.checkTriggerCondition, h1, h2, hb] at h
  | some b =>
    by_cases h3 : violates s.lastVpBasePool b ConvexUSDP.virtualPriceTol scale
    · simp [ConvexUSDP.checkTriggerCondition, h1, h2, hb, h3] at h
    cases hm : e.vpMeta with
    | none => simp [ConvexUSDP.checkTriggerCondition, h1, h2, hb, h3, hm] at h
    | some m =>
      by_cases h4 : violates s.lastVpMetaPool m ConvexUSDP.virtualPriceTol scale
      · simp [ConvexUSDP.checkTriggerCondition, h1, h2, hb, h3, hm, h4] at h
      · refine ⟨b, m, rfl, rfl, ?_⟩
        simp [ConvexUSDP.checkTriggerCondition, h1, h2, hb, h3, hm, h4]

lemma convex_check_true_state (e : ConvexUSDP.Env) (s : ConvexUSDP.State)
    (h : (ConvexUSDP.checkTriggerCondition e s).1 = true) :
    (ConvexUSDP.checkTriggerCondition e s).2.lastVpMetaPool = s.lastVpMetaPool ∧
    ((ConvexUSDP.checkTriggerCondition e s).2.lastVpBasePool = s.lastVpBasePool ∨
      e.vpBase = some ((ConvexUSDP.checkTriggerCondition e s).2.lastVpBasePool)) := by
  by_cases h1 : ConvexUSDP.checkCurveBaseBalances e
  · simp [ConvexUSDP.checkTriggerCondition, h1]
  by_cases h2 : ConvexUSDP.checkCurveMetaBalances e
  · simp [ConvexUSDP.checkTriggerCondition, h1, h2]
  cases hb : e.vpBase with
  | none => simp [ConvexUSDP.checkTriggerCondition, h1, h2, hb]
  | some b =>
    by_cases h3 : violates s.lastVpBasePool b ConvexUSDP.virtualPriceTol scale
    · simp [ConvexUSDP.checkTriggerCondition, h1, h2, hb, h3]
    cases hm : e.vpMeta with
    | none => simp [ConvexUSDP.checkTriggerCondition, h1, h2, hb, h3, hm]
    | some m =>
      by_cases h4 : violates s.lastVpMetaPool m ConvexUSDP.virtualPriceTol scale
      · simp [ConvexUSDP.checkTriggerCondition, h1, h2, hb, h3, hm, h4]
      · simp [ConvexUSDP.checkTriggerCondition, h1, h2, hb, h3, hm, h4] at h

/-- C4: commit-on-success.  When `checkAndToggleTrigger` on an Armed
instance returns `false`, every tracker's persisted `lastValue` equals
exactly the fresh value read from its source during that call: for
`YearnCrvTricrypto` the final storage is the pair of fresh readings,
and for `ConvexUSDP` both guarded fetches succeeded and their fresh
values are the new `lastVpBasePool` / `lastVpMetaPool`. -/
theorem claim_C4_commit_on_success
    (eY : YearnCrvTricrypto.Env) (sY : YearnCrvTricrypto.State)
    (eU : ConvexUSDP.Env) (sU : ConvexUSDP.State)
    (hY : (checkAndToggleTrigger YearnCrvTricrypto.checkTriggerCondition eY ⟨false, sY⟩).1 = false)
    (hU : (checkAndToggleTrigger ConvexUSDP.checkTriggerCondition eU ⟨false, sU⟩).1 = false) :
    (checkAndToggleTrigger YearnCrvTricrypto.checkTriggerCondition eY ⟨false, sY⟩).2.trackers =
      ⟨eY.pricePerShare, eY.virtualPrice⟩ ∧
    eU.vpBase = some ((checkAndToggleTrigger ConvexUSDP.checkTriggerCondition eU
      ⟨false, sU⟩).2.trackers.lastVpBasePool) ∧
    eU.vpMeta = some ((checkAndToggleTrigger ConvexUSDP.checkTriggerCondition eU
      ⟨false, sU⟩).2.trackers.lastVpMetaPool) := by
  have hU' : (ConvexUSDP.checkTriggerCondition eU sU).1 = false := by
    rw [checkAndToggle_armed_fst] at hU; exact hU
  obtain ⟨b, m, hb, hm, heq⟩ := convex_check_false eU sU hU'
  refine ⟨rfl, ?_, ?_⟩
  · rw [checkAndToggle_armed_snd]
    simp only [heq]
    exact hb
  · rw [checkAndToggle_armed_snd]
    simp only [heq]
    exact hm

theorem claim_C4_commit_on_success_witness :
    ((checkAndToggleTrigger YearnCrvTricrypto.checkTriggerCondition
        ⟨600, 900⟩ ⟨false, ⟨1000, 1000⟩⟩).1 = false) ∧
    ((checkAndToggleTrigger ConvexUSDP.checkTriggerCondition
        ⟨5, 5, 5, 5, 5, 5, 5, 5, 5, 5, some 80, some 90⟩
        ⟨false, ⟨100, 100⟩⟩).1 = false) ∧
    (checkAndToggleTrigger YearnCrvTricrypto.checkTriggerCondition
        ⟨600, 900⟩ ⟨false, ⟨1000, 1000⟩⟩).2.trackers = ⟨600, 900⟩ ∧
    (⟨5, 5, 5, 5, 5, 5, 5, 5, 5, 5, some 80, some 90⟩ : ConvexUSDP.Env).vpBase =
      some ((checkAndToggleTrigger ConvexUSDP.checkTriggerCondition
        ⟨5, 5, 5, 5, 5, 5, 5, 5, 5, 5, some 80, some 90⟩
        ⟨false, ⟨100, 100⟩⟩).2.trackers.lastVpBasePool) ∧
    (⟨5, 5, 5, 5, 5, 5, 5, 5, 5, 5, some 80, some 90⟩ : ConvexUSDP.Env).vpMeta =
      some ((checkAndToggleTrigger ConvexUSDP.checkTriggerCondition
        ⟨5, 5, 5, 5, 5, 5, 5, 5, 5, 5, some 80, some 90⟩
        ⟨false, ⟨100, 100⟩⟩).2.trackers.lastVpMetaPool) :=
  ⟨by decide, by decide,
    (claim_C4_commit_on_success ⟨600, 900⟩ ⟨1000, 1000⟩
      ⟨5, 5, 5, 5, 5, 5, 5, 5, 5, 5, some 80, some 90⟩ ⟨100, 100⟩
      (by decide) (by decide)).1,
    (claim_C4_commit_on_success ⟨600, 900⟩ ⟨1000, 1000⟩
      ⟨5, 5, 5, 5, 5, 5, 5, 5, 5, 5, some 80, some 90⟩ ⟨100, 100⟩
      (by decide) (by decide)).2.1,
    (claim_C4_commit_on_success ⟨600, 900⟩ ⟨1000, 1000⟩
      ⟨5, 5, 5, 5, 5, 5, 5, 5, 5, 5, some 80, some 90⟩ ⟨100, 100⟩
      (by decide) (by decide)).2.2⟩

/-- C5 counterexample: the commit is NOT all-or-nothing in the code.
In `ConvexUSDP.checkTriggerCondition` the base-pool virtual price is
committed to `lastVpBasePool` as soon as its own check passes, before
the meta-pool fetch runs.  Concretely: storage `⟨100, 100⟩`, all
balance reads healthy, base fetch returns `200` (no violation, since
`200 < 100 * 500 / 1000` is false, so `lastVpBasePool := 200`), meta
fetch reverts (`none`) — the call reports a violation (`true`) yet
`lastVpBasePool` has changed from `100` to `200`, contradicting the
claim that no tracker's `lastValue` is changed by a violating call. -/
theorem claim_C5_counterexample :
    checkAndToggleTrigger ConvexUSDP.checkTriggerCondition
      ⟨0, 0, 0, 0, 0, 0, 0, 0, 0, 0, some 200, none⟩ ⟨false, ⟨100, 100⟩⟩ =
      (true, ⟨true, ⟨200, 100⟩⟩) ∧
    (⟨200, 100⟩ : ConvexUSDP.State) ≠ ⟨100, 100⟩ := by decide

/-- C5 amended: the commit is per-tracker, in declared order, up to the
point of violation.  When `ConvexUSDP.checkTriggerCondition` reports a
violation, `lastVpMetaPool` is never changed (the meta commit lies only
on the full-success path), and `lastVpBasePool` is either unchanged or
equal to the fresh base-pool value — the latter exactly when the base
check had already passed before the violation occurred downstream. -/
theorem claim_C5_amended_partial_commit (e : ConvexUSDP.Env) (s : ConvexUSDP.State)
    (h : (checkAndToggleTrigger ConvexUSDP.checkTriggerCondition e ⟨false, s⟩).1 = true) :
    (checkAndToggleTrigger ConvexUSDP.checkTriggerCondition e
      ⟨false, s⟩).2.trackers.lastVpMetaPool = s.lastVpMetaPool ∧
    ((checkAndToggleTrigger ConvexUSDP.checkTriggerCondition e
        ⟨false, s⟩).2.trackers.lastVpBasePool = s.lastVpBasePool ∨
      e.vpBase = some ((checkAndToggleTrigger ConvexUSDP.checkTriggerCondition e
        ⟨false, s⟩).2.trackers.lastVpBasePool)) := by
  have h' : (ConvexUSDP.checkTriggerCondition e s).1 = true := by
    rw [checkAndToggle_armed_fst] at h; exact h
  have := convex_check_true_state e s h'
  rw [checkAndToggle_armed_snd]
  exact this

theorem claim_C5_amended_partial_commit_witness :
    ((checkAndToggleTrigger ConvexUSDP.checkTriggerCondition
        ⟨0, 0, 0, 0, 0, 0, 0, 0, 0, 0, some 200, none⟩ ⟨false, ⟨100, 100⟩⟩).1 = true) ∧
    (checkAndToggleTrigger ConvexUSDP.checkTriggerCondition
      ⟨0, 0, 0, 0, 0, 0, 0, 0, 0, 0, some 200, none⟩
      ⟨false, ⟨100, 100⟩⟩).2.trackers.lastVpMetaPool = 100 ∧
    ((checkAndToggleTrigger ConvexUSDP.checkTriggerCondition
        ⟨0, 0, 0, 0, 0, 0, 0, 0, 0, 0, some 200, none⟩
        ⟨false, ⟨100, 100⟩⟩).2.trackers.lastVpBasePool = 100 ∨
      (⟨0, 0, 0, 0, 0, 0, 0, 0, 0, 0, some 200, none⟩ : ConvexUSDP.Env).vpBase =
        some ((checkAndToggleTrigger ConvexUSDP.checkTriggerCondition
          ⟨0, 0, 0, 0, 0, 0, 0, 0, 0, 0, some 200, none⟩
          ⟨false, ⟨100, 100⟩⟩).2.trackers.lastVpBasePool)) :=
  ⟨by decide,
    (claim_C5_amended_partial_commit
      ⟨0, 0, 0, 0, 0, 0, 0, 0, 0, 0, some 200, none⟩ ⟨100, 100⟩ (by decide)).1,
    (claim_C5_amended_partial_commit
      ⟨0, 0, 0, 0, 0, 0, 0, 0, 0, 0, some 200, none⟩ ⟨100, 100⟩ (by decide)).2⟩

/-- C6 counterexample: not every composite in the repository
short-circuits.  `YearnCrvTricrypto.checkTriggerCondition` computes both
statuses, unconditionally fetches both signals and commits both fresh
values, even when the first tracker (price per share) already reports a
violation.  Concretely, with storage `⟨1000, 1000⟩` and a violating
first reading `0`, the outcome state still depends on — and commits —
the second tracker's fetched value (`777` vs `888`), so the remaining
tracker was evaluated after the first `Violated` outcome. -/
theorem claim_C6_counterexample :
    YearnCrvTricrypto.checkTriggerCondition ⟨0, 777⟩ ⟨1000, 1000⟩ = (true, ⟨0, 777⟩) ∧
    YearnCrvTricrypto.checkTriggerCondition ⟨0, 888⟩ ⟨1000, 1000⟩ = (true, ⟨0, 888⟩) ∧
    (YearnCrvTricrypto.checkTriggerCondition ⟨0, 777⟩ ⟨1000, 1000⟩).2 ≠
      (YearnCrvTricrypto.checkTriggerCondition ⟨0, 888⟩ ⟨1000, 1000⟩).2 := by decide

/-- C6 amended: the early-return composites (`ConvexUSDP`, `Convex2`,
`CurveThreeTokenBasePool`) do short-circuit; `YearnCrvTricrypto` and
`CurveThreeTokens` evaluate all trackers unconditionally.  For
`ConvexUSDP`: if a balance check reports a violation, the call returns
`(true, s)` with the state unchanged and the same outcome for every
possible value of both virtual-price fetches (they are not consulted);
if the balances pass and the base-pool virtual-price stage reports the
first violation (failed fetch or tolerance breach), the outcome is
`(true, s)` for every possible value of the meta-pool fetch. -/
theorem claim_C6_amended_short_circuit (e : ConvexUSDP.Env) (s : ConvexUSDP.State)
    (vb vm : Option ℕ) (v : ℕ) :
    ((ConvexUSDP.checkCurveBaseBalances e = true ∨ ConvexUSDP.checkCurveMetaBalances e = true) →
      ConvexUSDP.checkTriggerCondition { e with vpBase := vb, vpMeta := vm } s = (true, s)) ∧
    (ConvexUSDP.checkCurveBaseBalances e = false →
      (e.vpBase = none →
        ConvexUSDP.checkTriggerCondition { e with vpMeta := vm } s = (true, s)) ∧
      (e.vpBase = some v →
        violates s.lastVpBasePool v ConvexUSDP.virtualPriceTol scale = true →
        ConvexUSDP.checkTriggerCondition { e with vpMeta := vm } s = (true, s))) := by
  have hbase : ∀ w z, ConvexUSDP.checkCurveBaseBalances { e with vpBase := w, vpMeta := z } =
      ConvexUSDP.checkCurveBaseBalances e := fun _ _ => rfl
  have hmeta : ∀ w z, ConvexUSDP.checkCurveMetaBalances { e with vpBase := w, vpMeta := z } =
      ConvexUSDP.checkCurveMetaBalances e := fun _ _ => rfl
  constructor
  · rintro (h | h)
    · simp [ConvexUSDP.checkTriggerCondition, hbase, h]
    · simp [ConvexUSDP.checkTriggerCondition, hbase, hmeta, h]
  · intro h1
    by_cases h2 : ConvexUSDP.checkCurveMetaBalances e
    · constructor
      · intro _; simp [ConvexUSDP.checkTriggerCondition, hbase, hmeta, h1, h2]
      · intro _ _; simp [ConvexUSDP.checkTriggerCondition, hbase, hmeta, h1, h2]
    · constructor
      · intro hb
        simp [ConvexUSDP.checkTriggerCondition, hbase, hmeta, h1, h2, hb]
      · intro hb hv
        simp [ConvexUSDP.checkTriggerCondition, hbase, hmeta, h1, h2, hb, hv]

theorem claim_C6_amended_short_circuit_witness :
    (ConvexUSDP.checkCurveBaseBalances ⟨400, 5, 5, 1000, 0, 0, 0, 0, 0, 0, some 1, some 1⟩ = true ∨
      ConvexUSDP.checkCurveMetaBalances ⟨400, 5, 5, 1000, 0, 0, 0, 0, 0, 0, some 1, some 1⟩ = true) ∧
    ConvexUSDP.checkTriggerCondition
      ⟨400, 5, 5, 1000, 0, 0, 0, 0, 0, 0, none, some 999⟩ ⟨100, 100⟩ = (true, ⟨100, 100⟩) ∧
    (ConvexUSDP.checkCurveBaseBalances ⟨0, 0, 0, 0, 0, 0, 0, 0, 0, 0, some 10, some 1⟩ = false) ∧
    ConvexUSDP.checkTriggerCondition
      ⟨0, 0, 0, 0, 0, 0, 0, 0, 0, 0, some 10, none⟩ ⟨100, 100⟩ = (true, ⟨100, 100⟩) :=
  ⟨Or.inl (by decide),
    (claim_C6_amended_short_circuit ⟨400, 5, 5, 1000, 0, 0, 0, 0, 0, 0, some 7, some 7⟩
      ⟨100, 100⟩ none (some 999) 0).1 (Or.inl (by decide)),
    by decide,
    ((claim_C6_amended_short_circuit ⟨0, 0, 0, 0, 0, 0, 0, 0, 0, 0, some 10, some 1⟩
      ⟨100, 100⟩ none none 10).2 (by decide)).2 (by decide) (by decide)⟩

/-- C7 counterexample: the threshold comparison is NOT failure-free over
the full uint256 domain.  The contracts compile with Solidity 0.8
(`pragma solidity ^0.8.x`), whose checked arithmetic reverts when
`old * tol` overflows 256 bits.  At `old = 2^255` (a value inside
`[0, 2^256)`) and `tol = vaultTol = 500`, the product is `2^255 * 500 ≥
2^256`, so evaluating `new < old * tol / scale` reverts instead of
returning a boolean. -/
theorem claim_C7_counterexample :
    (2 ^ 255 : ℕ) < U256 ∧
    violatesChecked (2 ^ 255) 0 YearnCrvTricrypto.vaultTol scale = none := by
  constructor
  · decide
  · decide

/-- C7 amended: the comparison is pure and failure-free exactly on the
domain where the product fits in uint256: for every `old`, `fresh`,
tolerance `num` and positive scale `den` with `old * num < 2^256`, the
checked evaluation succeeds and computes `fresh < floor(old * num /
den)` — it equals the pure `violates` on that domain.  (Every tolerance
in the repository has `num ≤ 1000`, so the bound only excludes values
`old ≥ 2^256 / 1000`, far above any token-balance or price magnitude.) -/
theorem claim_C7_amended_no_overflow (old fresh num den : ℕ)
    (hmul : old * num < U256) (hden : 0 < den) :
    violatesChecked old fresh num den = some (violates old fresh num den) := by
  have hden' : den ≠ 0 := Nat.pos_iff_ne_zero.mp hden
  simp [violatesChecked, mulCheck, divCheck, hmul, hden', violates]

theorem claim_C7_amended_no_overflow_witness :
    1000 * 500 < U256 ∧ 0 < 1000 ∧
    violatesChecked 1000 499 500 1000 = some (violates 1000 499 500 1000) :=
  ⟨by decide, by decide,
    claim_C7_amended_no_overflow 1000 499 500 1000 (by decide) (by decide)⟩

/-- C8 counterexample: construction does NOT fail when the initial live
read already indicates a violated state.  `ConvexUSDP`'s constructor
only seeds `lastVpMetaPool`/`lastVpBasePool` from live reads; it
contains no `require` on the balance state.  Concretely, with the base
pool's internally tracked balance at `1000` but the true token balance
drained to `400` (`400 < 1000 * 500 / 1000 = 500`, a balance
violation), construction succeeds and yields a live Armed instance
(`isTriggered = false`) — the second conjunct shows the very same live
readings make `checkTriggerCondition` report a violation. -/
theorem claim_C8_counterexample :
    ConvexUSDP.construct ⟨400, 0, 0, 1000, 0, 0, 0, 0, 0, 0, some 1, some 1⟩ =
      some ⟨false, ⟨1, 1⟩⟩ ∧
    ConvexUSDP.checkTriggerCondition ⟨400, 0, 0, 1000, 0, 0, 0, 0, 0, 0, some 1, some 1⟩
      ⟨1, 1⟩ = (true, ⟨1, 1⟩) := by decide

/-- C8 amended: the constructor performs no violation check.  Whenever
both initial virtual-price reads succeed — regardless of whether the
live readings already violate any trigger condition — construction
succeeds and yields an instance that starts Armed with
`isTriggered = false` (so no instance is ever born triggered; the
latch-at-birth half of the original claim survives), seeded with the
fresh reads.  A trigger born over an already-broken pool simply latches
on the first `checkAndToggleTrigger` call instead. -/
theorem claim_C8_amended_construction (e : ConvexUSDP.Env) (b m : ℕ)
    (hb : e.vpBase = some b) (hm : e.vpMeta = some m) :
    ConvexUSDP.construct e = some ⟨false, ⟨b, m⟩⟩ := by
  simp [ConvexUSDP.construct, hb, hm]

theorem claim_C8_amended_construction_witness :
    ((⟨400, 0, 0, 1000, 0, 0, 0, 0, 0, 0, some 1, some 1⟩ : ConvexUSDP.Env).vpBase = some 1) ∧
    ((⟨400, 0, 0, 1000, 0, 0, 0, 0, 0, 0, some 1, some 1⟩ : ConvexUSDP.Env).vpMeta = some 1) ∧
    ConvexUSDP.construct ⟨400, 0, 0, 1000, 0, 0, 0, 0, 0, 0, some 1, some 1⟩ =
      some ⟨false, ⟨1, 1⟩⟩ :=
  ⟨by decide, by decide,
    claim_C8_amended_construction ⟨400, 0, 0, 1000, 0, 0, 0, 0, 0, 0, some 1, some 1⟩
      1 1 (by decide) (by decide)⟩

/-- C9: the equality-invariant check of `Convex2` compares the Convex
receipt-token total supply with the gauge balance claimable by the
Convex staker.  Any inequality between the two live values — in either
direction, by any amount — makes the evaluation report `true`
immediately with the state untouched (no tolerance ratio enters the
comparison), while exact equality is never itself a violation: with
equal values and every other check healthy the evaluation returns
`false`. -/
theorem claim_C9_equality_invariant (e : Convex2.Env) (s : Convex2.State) (b m : ℕ) :
    (e.convexTokenSupply ≠ e.gaugeStakerBal →
      Convex2.checkTriggerCondition e s = (true, s)) ∧
    (e.convexTokenSupply = e.gaugeStakerBal →
      Convex2.checkCurveBaseBalances e = false →
      Convex2.checkCurveMetaBalances e = false →
      e.vpBase = some b → e.vpMeta = some m →
      violates s.lastVpBasePool b Convex2.virtualPriceTol scale = false →
      violates s.lastVpMetaPool m Convex2.virtualPriceTol scale = false →
      Convex2.checkTriggerCondition e s = (false, ⟨b, m⟩)) := by
  constructor
  · intro hne
    simp [Convex2.checkTriggerCondition, hne]
  · intro heq h1 h2 hb hm hv1 hv2
    simp [Convex2.checkTriggerCondition, heq, h1, h2, hb, hm, hv1, hv2]

theorem claim_C9_equality_invariant_witness :
    ((⟨1001, 1000, 0, 0, 0, 0, 0, 0, 0, 0, 0, 0, some 1, some 1⟩ : Convex2.Env).convexTokenSupply ≠
      (⟨1001, 1000, 0, 0, 0, 0, 0, 0, 0, 0, 0, 0, some 1, some 1⟩ : Convex2.Env).gaugeStakerBal) ∧
    Convex2.checkTriggerCondition ⟨1001, 1000, 0, 0, 0, 0, 0, 0, 0, 0, 0, 0, some 1, some 1⟩
      ⟨1, 1⟩ = (true, ⟨1, 1⟩) ∧
    Convex2.checkTriggerCondition ⟨1000, 1000, 0, 0, 0, 0, 0, 0, 0, 0, 0, 0, some 1, some 1⟩
      ⟨1, 1⟩ = (false, ⟨1, 1⟩) :=
  ⟨by decide,
    (claim_C9_equality_invariant ⟨1001, 1000, 0, 0, 0, 0, 0, 0, 0, 0, 0, 0, some 1, some 1⟩
      ⟨1, 1⟩ 1 1).1 (by decide),
    (claim_C9_equality_invariant ⟨1000, 1000, 0, 0, 0, 0, 0, 0, 0, 0, 0, 0, some 1, some 1⟩
      ⟨1, 1⟩ 1 1).2 rfl (by decide) (by decide) rfl rfl (by decide) (by decide)⟩

lemma yearn_check_no_violation (e : YearnCrvTricrypto.Env) (s : YearnCrvTricrypto.State)
    (h1 : violates s.lastPricePerShare e.pricePerShare YearnCrvTricrypto.vaultTol scale = false)
    (h2 : violates s.lastVirtualPrice e.virtualPrice YearnCrvTricrypto.curveTol scale = false) :
    YearnCrvTricrypto.checkTriggerCondition e s =
      (false, ⟨e.pricePerShare, e.virtualPrice⟩) := by
  simp [YearnCrvTricrypto.checkTriggerCondition, h1, h2]

/-- C10: sliding-window rebasing.  Because each non-violating call of
`YearnCrvTricrypto.checkTriggerCondition` overwrites both remembered
values with the fresh readings, the trigger never latches along any
sequence of evaluation cycles in which every fresh value stays at or
above `floor(previous lastValue * tol / scale)` for its tracker — even
when the cumulative decline across the whole sequence far exceeds the
single-step tolerance (the witness drops the price per share by 75%
against a 50% per-step tolerance without ever triggering). -/
theorem claim_C10_sliding_window (s : YearnCrvTricrypto.State)
    (es : List YearnCrvTricrypto.Env)
    (h : YearnCrvTricrypto.noViolationSeq s es = true) :
    (run YearnCrvTricrypto.checkTriggerCondition es ⟨false, s⟩).isTriggered = false := by
  induction es generalizing s with
  | nil => rfl
  | cons e es ih =>
    rw [YearnCrvTricrypto.noViolationSeq] at h
    simp only [Bool.and_eq_true, Bool.not_eq_true'] at h
    obtain ⟨h1, h2, h3⟩ := h
    rw [run_cons, checkAndToggle_armed_snd, yearn_check_no_violation e s h1 h2]
    exact ih _ h3

theorem claim_C10_sliding_window_witness :
    YearnCrvTricrypto.noViolationSeq ⟨1000, 1000⟩ [⟨500, 250⟩, ⟨250, 62⟩] = true ∧
    (run YearnCrvTricrypto.checkTriggerCondition [⟨500, 250⟩, ⟨250, 62⟩]
      ⟨false, ⟨1000, 1000⟩⟩).isTriggered = false :=
  ⟨by decide,
    claim_C10_sliding_window ⟨1000, 1000⟩ [⟨500, 250⟩, ⟨250, 62⟩] (by decide)⟩

end CozyTriggers
